import Mathlib

/-
Verification of the waitx single-event synchronization gate
(src/src/lib.rs) via a shallow embedding.

The gate is an atomic ready flag plus a condition variable and a mutex.
Handles: `Setter` (store true), `Notifier` (store true + notify_one),
`Spectator` (acquire load), `Waiter` (owner; `wait`, `reset`, factories).

The embedding records, for each operation, the successor gate state and
the trace of primitive effects the operation performs (atomic stores and
loads with their memory orderings, mutex and condition-variable calls),
translated line by line from the source.
-/

namespace Waitx

/-- Memory orderings that appear in the source (`Ordering::Acquire`,
`Ordering::Release`). -/
inductive MemOrder
  | acquire
  | release
deriving DecidableEq, Repr

/-- Primitive effects an operation of the gate can perform: atomic stores
and loads of the ready flag, mutex acquisition and release, and the two
condition-variable calls. -/
inductive Effect
  | storeFlag (b : Bool) (ord : MemOrder)
  | loadFlag (b : Bool) (ord : MemOrder)
  | lockMutex
  | unlockMutex
  | cvarWaitPark
  | cvarNotifyOne
deriving DecidableEq, Repr

/-- State of one gate: the ready flag, and the number of threads currently
parked on the condition variable. -/
structure Gate where
  ready : Bool
  parked : Nat
deriving DecidableEq, Repr

/-- `Waiter::new` / `Waiter::default` (lib.rs:73-75): flag starts `false`,
nobody parked. -/
def Gate.new : Gate := ⟨false, 0⟩

/-- Modelled from the spec: `parking_lot::Condvar::notify_one` (a
dependency, not in src/) wakes exactly one thread currently parked on the
condition variable, and is a no-op if none is parked. -/
def notifyOne (parked : Nat) : Nat := parked - 1

/-- `Setter::set_ready` (lib.rs:28-30):
`self.ready.store(true, Ordering::Release);` — nothing else. -/
def Gate.set_ready (g : Gate) : Gate × List Effect :=
  ({ g with ready := true }, [Effect.storeFlag true MemOrder.release])

/-- `Notifier::notify` (lib.rs:58-61):
`self.ready.store(true, Ordering::Release); self.cvar.notify_one();` —
the store first, then the single wake. -/
def Gate.notify (g : Gate) : Gate × List Effect :=
  let g1 : Gate := { g with ready := true }
  let g2 : Gate := { g1 with parked := notifyOne g1.parked }
  (g2, [Effect.storeFlag true MemOrder.release, Effect.cvarNotifyOne])

/-- `Spectator::is_ready` (lib.rs:46-48):
`self.ready.load(Ordering::Acquire)` — returns the loaded boolean, the
gate state is untouched. -/
def Gate.is_ready (g : Gate) : Bool × Gate × List Effect :=
  (g.ready, g, [Effect.loadFlag g.ready MemOrder.acquire])

/-- `Waiter::reset` (lib.rs:114-116):
`self.ready.store(false, Ordering::Release)` — nothing else. -/
def Gate.reset (g : Gate) : Gate × List Effect :=
  ({ g with ready := false }, [Effect.storeFlag false MemOrder.release])

/-- An operation of the public interface that touches (or reads) the
ready flag of one gate: `Setter::set_ready`, `Notifier::notify`,
`Waiter::reset`, `Spectator::is_ready`. -/
inductive Op
  | set_ready
  | notify
  | reset
  | is_ready
deriving DecidableEq, Repr

/-- Effect of one interface operation on the gate state, dispatching to
the per-operation definitions above. -/
def Gate.applyOp (g : Gate) : Op → Gate
  | Op.set_ready => (Gate.set_ready g).1
  | Op.notify => (Gate.notify g).1
  | Op.reset => (Gate.reset g).1
  | Op.is_ready => (Gate.is_ready g).2.1

/-- Gate state after a sequence of interface operations, starting from
`Waiter::new`. -/
def runOps (ops : List Op) : Gate := ops.foldl Gate.applyOp Gate.new

/-- Modelled from the spec: the flag is `true` exactly when at least one
`set_ready` or `notify` has occurred with no later `reset` — i.e. when,
scanning the history backwards, a flag-raising operation appears before
any `reset`. -/
def setSinceReset (ops : List Op) : Bool :=
  (ops.reverse.takeWhile (fun o => !(o == Op.reset))).any
    (fun o => o == Op.set_ready || o == Op.notify)

/-- The heap of atomic ready flags, addressed by `Arc` identity: distinct
gates hold distinct `Arc<AtomicBool>` allocations. -/
def Heap : Type := Nat → Bool

/-- `Waiter` (lib.rs:66-70): owns the ready flag, the condvar and the
mutex; the fields here are the `Arc` identities of the shared state. -/
structure Waiter where
  ready : Nat
  cvar : Nat
  mutex : Nat

/-- `Notifier` (lib.rs:10-13): holds shared references to the ready flag
and the condvar. -/
structure Notifier where
  ready : Nat
  cvar : Nat

/-- `Setter` (lib.rs:16-19): holds a shared reference to the ready flag
only. -/
structure Setter where
  ready : Nat

/-- `Spectator` (lib.rs:35-37): holds a shared reference to the ready
flag only. -/
structure Spectator where
  ready : Nat

/-- `Waiter::notifier` (lib.rs:99-101):
`Notifier::new(self.ready.clone(), self.cvar.clone())`. -/
def Waiter.notifier (w : Waiter) : Notifier := ⟨w.ready, w.cvar⟩

/-- `Waiter::setter` (lib.rs:104-106): `Setter::new(self.ready.clone())`. -/
def Waiter.setter (w : Waiter) : Setter := ⟨w.ready⟩

/-- `Waiter::spectator` (lib.rs:109-111):
`Spectator::new(self.ready.clone())`. -/
def Waiter.spectator (w : Waiter) : Spectator := ⟨w.ready⟩

/-- `Setter::set_ready` acting on the flag heap: stores `true` into the
flag the handle references. -/
def Setter.set_ready (s : Setter) (h : Heap) : Heap :=
  fun a => if a = s.ready then true else h a

/-- The flag store of `Notifier::notify` acting on the flag heap (the
subsequent `notify_one` call acts on the condvar, not on any flag). -/
def Notifier.notifyStore (n : Notifier) (h : Heap) : Heap :=
  fun a => if a = n.ready then true else h a

/-- `Spectator::is_ready` acting on the flag heap: acquire load of the
flag the handle references. -/
def Spectator.is_ready (sp : Spectator) (h : Heap) : Bool := h sp.ready

/-- The flag value `Waiter::wait` observes on an acquire load, acting on
the flag heap: the waiter reads its own flag. -/
def Waiter.loadReady (w : Waiter) (h : Heap) : Bool := h w.ready

/-- Modelled from the spec: the adaptive backoff counter
(`crossbeam_utils::Backoff`, a dependency, not in src/) — a counter
advanced by each `snooze` up to a completion threshold; `is_completed`
reports whether the threshold has been passed, after which it stays
completed for the rest of the loop. -/
structure Backoff where
  step : Nat
deriving DecidableEq, Repr

/-- Fresh backoff counter (`Backoff::new`). -/
def Backoff.mkNew : Backoff := ⟨0⟩

/-- Completion threshold of the backoff counter. -/
def backoffLimit : Nat := 10

/-- Whether the counter has passed the completion threshold. -/
def Backoff.is_completed (b : Backoff) : Bool := decide (backoffLimit < b.step)

/-- One bounded busy-wait step: advance the counter (saturating at the
threshold, as further advancing is pointless once completed). -/
def Backoff.snooze (b : Backoff) : Backoff :=
  if b.step ≤ backoffLimit then ⟨b.step + 1⟩ else b

/-- Events a run of `Waiter::wait` produces, in order: acquire loads of
the flag with the value observed, mutex acquisition, parking on the
condition variable (the thread later resumes on a notified or spurious
wake), and backoff snoozes. -/
inductive WaitEvent
  | load (b : Bool)
  | lock
  | park
  | snooze
deriving DecidableEq, Repr

/-- `Waiter::wait` (lib.rs:78-96), fuel-bounded. `flags i` is the value
the i-th acquire load of the ready flag observes (other handles may store
to the flag concurrently, so the observed values form a schedule). Each
loop iteration: load the flag into the local `is_ready`; break if it is
true; otherwise, if the backoff is completed, lock the mutex and — as the
source does — branch on the local `is_ready` loaded before the lock
(necessarily still false on this path), parking on the condvar when it is
false; otherwise snooze. A wake from the park returns to the top of the
loop. Returns the event trace when the loop exits within `fuel`, `none`
otherwise. -/
def waitRun (flags : Nat → Bool) :
    Nat → Backoff → Nat → List WaitEvent → Option (List WaitEvent)
  | 0, _, _, _ => none
  | fuel + 1, backoff, i, acc =>
    let is_ready := flags i
    if is_ready then
      some (acc ++ [WaitEvent.load is_ready])
    else if Backoff.is_completed backoff then
      waitRun flags fuel backoff (i + 1)
        (acc ++ [WaitEvent.load is_ready, WaitEvent.lock] ++
          (if !is_ready then [WaitEvent.park] else []))
    else
      waitRun flags fuel (Backoff.snooze backoff) (i + 1)
        (acc ++ [WaitEvent.load is_ready, WaitEvent.snooze])

/-- The completed-backoff arm of `Waiter::wait` (lib.rs:87-91) in
isolation, exactly as the source performs it: take the lock, then branch
on the local `is_ready` that was loaded *before* the lock; no load of the
flag happens under the lock, so `flagAtLockTime` — the true value of the
shared flag at the moment the lock is held — is never consulted. -/
def lockPathCode (staleIsReady : Bool) (_flagAtLockTime : Bool) :
    List WaitEvent :=
  [WaitEvent.lock] ++ (if !staleIsReady then [WaitEvent.park] else [])

/-- Modelled from the spec: the same arm as the spec describes it —
acquire the lock, re-check the flag once more with a fresh load performed
under the lock, and park only if that re-check still observes `false`. -/
def lockPathSpec (flagAtLockTime : Bool) : List WaitEvent :=
  [WaitEvent.lock, WaitEvent.load flagAtLockTime] ++
    (if !flagAtLockTime then [WaitEvent.park] else [])

end Waitx

namespace Waitx

/-- C5: `Setter.set_ready` stores true into the flag with release ordering
and does nothing else: its effect trace is exactly the one release store,
with no condition-variable or mutex effect, so the set of parked threads
is unchanged and no parked thread is woken. -/
theorem setReady_store_only (g : Gate) :
    (Gate.set_ready g).1.ready = true ∧
    (Gate.set_ready g).1.parked = g.parked ∧
    (Gate.set_ready g).2 = [Effect.storeFlag true MemOrder.release] := by
  refine ⟨rfl, rfl, rfl⟩

/-- C4: `Notifier.notify` first stores true into the flag with release
ordering and then issues exactly one `notify_one` call, in that order;
the wake removes at most one thread from the parked set, and when none is
parked the parked set stays empty (the wake is a no-op). -/
theorem notify_store_then_single_wake (g : Gate) :
    (Gate.notify g).2 =
      [Effect.storeFlag true MemOrder.release, Effect.cvarNotifyOne] ∧
    (Gate.notify g).1.ready = true ∧
    (Gate.notify g).1.parked ≤ g.parked ∧
    g.parked - (Gate.notify g).1.parked ≤ 1 ∧
    (Gate.notify (Gate.mk g.ready 0)).1.parked = 0 := by
  refine ⟨rfl, rfl, Nat.sub_le _ _, ?_, rfl⟩
  simp [Gate.notify, notifyOne]
  omega

/-- C6: `Notifier.notify` is idempotent on the flag: from any gate state,
two successive calls leave the flag in the same state (`true`) as one
call, and each of the two calls still performs exactly one wake attempt. -/
theorem notify_idempotent_on_flag (g : Gate) :
    (Gate.notify (Gate.notify g).1).1.ready = (Gate.notify g).1.ready ∧
    (Gate.notify g).1.ready = true ∧
    (Gate.notify g).2.count Effect.cvarNotifyOne = 1 ∧
    (Gate.notify (Gate.notify g).1).2.count Effect.cvarNotifyOne = 1 := by
  refine ⟨rfl, rfl, ?_, ?_⟩ <;> simp [Gate.notify, List.count_cons]

/-- C7: `Waiter.reset` stores false into the flag with release ordering,
and from every prior gate state, `reset()` immediately followed by
`is_ready()` (no intervening set or notify) returns `false`. -/
theorem reset_then_isReady_false (g : Gate) :
    (Gate.reset g).2 = [Effect.storeFlag false MemOrder.release] ∧
    (Gate.is_ready (Gate.reset g).1).1 = false := by
  exact ⟨rfl, rfl⟩

/-- C8: `Spectator.is_ready` performs a single acquire load of the flag
and returns that boolean; the gate state it returns is exactly the one it
was given (no mutation), and its effect trace holds no store, mutex or
condition-variable effect, so it cannot block. -/
theorem isReady_pure_single_acquire_load (g : Gate) :
    (Gate.is_ready g).1 = g.ready ∧
    (Gate.is_ready g).2.1 = g ∧
    (Gate.is_ready g).2.2 = [Effect.loadFlag g.ready MemOrder.acquire] := by
  exact ⟨rfl, rfl, rfl⟩

/-- Appending one operation to a history folds it into the final state. -/
theorem runOps_concat (ops : List Op) (op : Op) :
    runOps (ops ++ [op]) = Gate.applyOp (runOps ops) op := by
  simp [runOps, List.foldl_append]

/-- C2: starting from `Waiter::new`, after any sequence of interface
operations the flag is `true` exactly when a `set_ready` or `notify` has
occurred with no later `reset` (so it is `false` when none has occurred
since construction or since the last `reset`); and no operation other
than `reset` ever moves the flag from `true` back to `false`. -/
theorem flag_tracks_setSinceReset :
    (∀ ops : List Op, (runOps ops).ready = setSinceReset ops) ∧
    (∀ (g : Gate) (op : Op),
      g.ready = false ∨ op = Op.reset ∨ (Gate.applyOp g op).ready = true) := by
  constructor
  · intro ops
    induction ops using List.reverseRecOn with
    | nil => rfl
    | append_singleton l a ih =>
      cases a <;>
        simp [runOps_concat, Gate.applyOp, Gate.set_ready, Gate.notify,
          Gate.reset, Gate.is_ready, setSinceReset, List.reverse_append,
          List.takeWhile_cons]
      simpa [setSinceReset] using ih
  · intro g op
    rcases g with ⟨r, p⟩
    cases r <;> cases op <;>
      simp [Gate.applyOp, Gate.set_ready, Gate.notify, Gate.reset,
        Gate.is_ready]

/-- C9: every handle produced by `Waiter.notifier`, `Waiter.setter` or
`Waiter.spectator` references the same flag as the originating `Waiter`
(and, for `Notifier`, the same condition variable), so a `set_ready` or a
`notify` flag store through a derived handle is observed as `true` by
`is_ready` on any other handle of the same gate and by the `Waiter`'s own
flag load in `wait`. -/
theorem handles_share_state (w : Waiter) (h : Heap) :
    (Waiter.notifier w).ready = w.ready ∧
    (Waiter.notifier w).cvar = w.cvar ∧
    (Waiter.setter w).ready = w.ready ∧
    (Waiter.spectator w).ready = w.ready ∧
    Spectator.is_ready (Waiter.spectator w)
      (Setter.set_ready (Waiter.setter w) h) = true ∧
    Spectator.is_ready (Waiter.spectator w)
      (Notifier.notifyStore (Waiter.notifier w) h) = true ∧
    Waiter.loadReady w (Setter.set_ready (Waiter.setter w) h) = true ∧
    Waiter.loadReady w (Notifier.notifyStore (Waiter.notifier w) h) = true := by
  refine ⟨rfl, rfl, rfl, rfl, ?_, ?_, ?_, ?_⟩ <;>
    simp [Spectator.is_ready, Setter.set_ready, Notifier.notifyStore,
      Waiter.loadReady, Waiter.spectator, Waiter.setter, Waiter.notifier]

/-- A run of `Waiter::wait` that terminates ends with an acquire load
that observed the flag as `true`: the loop breaks on no other condition. -/
theorem waitRun_ends_with_load_true (flags : Nat → Bool) :
    ∀ (fuel : Nat) (b : Backoff) (i : Nat) (acc tr : List WaitEvent),
      waitRun flags fuel b i acc = some tr →
      ∃ l, tr = acc ++ l ++ [WaitEvent.load true] := by
  intro fuel
  induction fuel with
  | zero =>
    intro b i acc tr h
    simp [waitRun] at h
  | succ n ih =>
    intro b i acc tr h
    by_cases hf : flags i = true
    · simp [waitRun, hf] at h
      exact ⟨[], by simp [← h]⟩
    · simp only [Bool.not_eq_true] at hf
      by_cases hc : Backoff.is_completed b = true
      · simp only [waitRun, hf, hc, Bool.false_eq_true, if_false, if_true,
          Bool.not_false] at h
        obtain ⟨l, rfl⟩ := ih _ _ _ _ h
        exact ⟨[WaitEvent.load false, WaitEvent.lock, WaitEvent.park] ++ l,
          by simp⟩
      · simp only [Bool.not_eq_true] at hc
        simp only [waitRun, hf, hc, Bool.false_eq_true, if_false] at h
        obtain ⟨l, rfl⟩ := ih _ _ _ _ h
        exact ⟨[WaitEvent.load false, WaitEvent.snooze] ++ l, by simp⟩

/-- C3: `Waiter.wait` returns only after it has observed the flag as
`true`: any terminating run's trace contains a load of `true`, and its
very last event is that load — so it never returns while every observed
flag value was `false`. Moreover, when the flag is `true` at entry the
run is exactly one load: it returns on the first check with no mutex
acquisition and no parking. -/
theorem wait_returns_only_on_true (flags : Nat → Bool) (fuel : Nat)
    (tr : List WaitEvent)
    (h : waitRun flags fuel Backoff.mkNew 0 [] = some tr) :
    WaitEvent.load true ∈ tr ∧
    tr.getLast? = some (WaitEvent.load true) ∧
    (flags 0 = true →
      tr = [WaitEvent.load true] ∧
      WaitEvent.lock ∉ tr ∧ WaitEvent.park ∉ tr) := by
  obtain ⟨l, rfl⟩ := waitRun_ends_with_load_true flags fuel _ 0 [] _ h
  refine ⟨by simp, by simp, ?_⟩
  intro h0
  cases fuel with
  | zero => simp [waitRun] at h
  | succ n =>
    simp [waitRun, h0] at h
    simp [h]

/-- Witness for C3: the flag already `true` at entry, fuel 1 — the run is
the single observing load. -/
theorem wait_returns_only_on_true_witness :
    WaitEvent.load true ∈ [WaitEvent.load true] ∧
    ([WaitEvent.load true] : List WaitEvent).getLast? =
      some (WaitEvent.load true) ∧
    ((fun _ : Nat => true) 0 = true →
      [WaitEvent.load true] = [WaitEvent.load true] ∧
      WaitEvent.lock ∉ [WaitEvent.load true] ∧
      WaitEvent.park ∉ [WaitEvent.load true]) :=
  wait_returns_only_on_true (fun _ => true) 1 [WaitEvent.load true] (by rfl)

/-- C1: the completed-backoff arm of the source (lib.rs:87-91) does not
re-check the flag with a fresh load under the lock: it branches on the
stale local `is_ready` loaded before the lock. At the failing input —
stale local `false`, actual flag `true` by the time the lock is held —
the code's arm performs no load at all under the lock and parks anyway,
while the arm the spec describes loads `true` under the lock and does not
park. -/
theorem stale_recheck_parks_despite_true_flag :
    lockPathCode false true = [WaitEvent.lock, WaitEvent.park] ∧
    lockPathSpec true = [WaitEvent.lock, WaitEvent.load true] := by
  exact ⟨rfl, rfl⟩

/-- C10: `Waiter.reset` consists solely of the flag store: its effect
trace is the one release store of `false`, with no mutex or
condition-variable effect, and the set of parked threads is unchanged —
a thread parked in `wait()` is never woken by a reset. -/
theorem reset_store_only (g : Gate) :
    (Gate.reset g).2 = [Effect.storeFlag false MemOrder.release] ∧
    (Gate.reset g).1.parked = g.parked ∧
    (Gate.reset g).1.ready = false := by
  exact ⟨rfl, rfl, rfl⟩

end Waitx
